import Mathlib

/-!
Verification of the scoring/grading engine and the input-validator contract of
the affiliate-content quality pipeline (`src/affiliate_ai_quality/src/orchestrator.py`).

The engine `mock_evaluate_content` is a pure function from an input document to
an audit report, except for the time-derived `audit_id` and `timestamp` fields;
those two strings are passed in as parameters here (they are produced by
`create_audit_id()` and `datetime.now().isoformat()` in the source and do not
influence any score).  Python dictionaries with possibly-missing keys are
embedded as structures with `Option` fields; `dict.get(k, default)` becomes
`Option.getD`.  Python `//` on the non-negative integers involved is `Nat`
division, and `min` is `Nat` `min`.
-/

/-- One `asp_links` entry: `{url, product_name, priority, commission_rate?}`.
`commission_rate` is a JSON number; the engine never reads it, so it is kept
as an optional rational. -/
structure AspLink where
  url : String
  product_name : String
  priority : Int
  commission_rate : Option Rat
deriving Repr, DecidableEq

/-- The `meta` object inside `content`.  The engine never reads it. -/
structure ContentMeta where
  target_keyword : Option String
  product_category : Option String
  asp_provider : Option String
deriving Repr, DecidableEq

/-- The `content` object.  Every field is optional at the engine boundary:
the engine reaches it through `dict.get`, defending against absent keys. -/
structure Content where
  title : Option String
  body : Option String
  meta : Option ContentMeta
deriving Repr, DecidableEq

/-- The optional `evaluation_config` object; accepted but never read by the
placeholder engine. -/
structure EvaluationConfig where
  strict_mode : Bool
  target_score : Int
  check_link_validity : Bool
deriving Repr, DecidableEq

/-- An input document as the engine sees it: a JSON object whose `content` and
`asp_links` keys may each be missing (`none`). -/
structure InputDocument where
  content : Option Content
  asp_links : Option (List AspLink)
  evaluation_config : Option EvaluationConfig
deriving Repr, DecidableEq

/-- Grades, `orchestrator.py` lines 49-58. -/
inductive Grade where
  | POOR
  | FAIR
  | GOOD
  | EXCELLENT
  | ELITE
deriving Repr, DecidableEq

/-- Link-validation status enum of the output schema. -/
inductive LinkStatus where
  | valid
  | invalid
  | redirect
  | timeout
deriving Repr, DecidableEq

/-- `overall_score` object of the report. -/
structure OverallScore where
  total : Nat
  grade : Grade
  auto_publish_eligible : Bool
deriving Repr, DecidableEq

/-- `detailed_scores` object of the report, lines 68-77. -/
structure DetailedScores where
  seo_optimization : Nat
  content_quality : Nat
  affiliate_integration : Nat
  link_validity : Nat
  user_value : Nat
  compliance : Nat
  conversion_potential : Nat
  technical_quality : Nat
deriving Repr, DecidableEq

/-- One `improvements` entry, lines 78-85. -/
structure Improvement where
  category : String
  severity : String
  description : String
  impact_points : Nat
deriving Repr, DecidableEq

/-- One `link_validation_results` entry, lines 86-93. -/
structure LinkValidationResult where
  original_url : String
  status : LinkStatus
  redirect_count : Nat
  response_time_ms : Nat
deriving Repr, DecidableEq

/-- The `metadata` object, lines 94-99. -/
structure AuditMetadata where
  evaluator_version : String
  processing_time_seconds : Rat
  ai_model_used : String
  content_length : Nat
deriving Repr, DecidableEq

/-- The audit report returned by `mock_evaluate_content`. -/
structure AuditReport where
  audit_id : String
  timestamp : String
  overall_score : OverallScore
  detailed_scores : DetailedScores
  improvements : List Improvement
  link_validation_results : List LinkValidationResult
  metadata : AuditMetadata
deriving Repr, DecidableEq

/-- Line 40: `content_length = len(input_data.get('content', {}).get('body', ''))`.
A missing `content` key yields the empty dict, whose missing `body` yields `''`. -/
def content_length (input_data : InputDocument) : Nat :=
  (((input_data.content.getD { title := none, body := none, meta := none }).body).getD "").length

/-- Line 41: `asp_links_count = len(input_data.get('asp_links', []))`. -/
def asp_links_count (input_data : InputDocument) : Nat :=
  (input_data.asp_links.getD []).length

/-- Line 44: `base_score = min(80, content_length // 20)`. -/
def base_score (input_data : InputDocument) : Nat :=
  min 80 (content_length input_data / 20)

/-- Line 45: `link_score = min(20, asp_links_count * 5)`. -/
def link_score (input_data : InputDocument) : Nat :=
  min 20 (asp_links_count input_data * 5)

/-- Line 46: `total_score = base_score + link_score`. -/
def total_score (input_data : InputDocument) : Nat :=
  base_score input_data + link_score input_data

/-- Lines 49-58: the grade ladder, evaluated highest-first, first match wins. -/
def gradeOf (total : Nat) : Grade :=
  if total ≥ 114 then Grade.ELITE
  else if total ≥ 100 then Grade.EXCELLENT
  else if total ≥ 80 then Grade.GOOD
  else if total ≥ 60 then Grade.FAIR
  else Grade.POOR

/-- Lines 37-100: `mock_evaluate_content(input_data)`.  The two time-derived
strings (`create_audit_id()` and `datetime.now().isoformat()`) are passed in
as `audit_id` and `timestamp`. -/
def mock_evaluate_content (audit_id timestamp : String)
    (input_data : InputDocument) : AuditReport :=
  { audit_id := audit_id
    timestamp := timestamp
    overall_score :=
      { total := total_score input_data
        grade := gradeOf (total_score input_data)
        auto_publish_eligible := decide (total_score input_data ≥ 114) }
    detailed_scores :=
      { seo_optimization := min 15 (total_score input_data / 8)
        content_quality := min 20 (content_length input_data / 50)
        affiliate_integration := min 20 (asp_links_count input_data * 4)
        link_validity := min 15 (asp_links_count input_data * 3)
        user_value := min 20 (content_length input_data / 40)
        compliance := 8
        conversion_potential := min 15 (asp_links_count input_data * 3)
        technical_quality := 4 }
    improvements :=
      [ { category := "seo"
          severity := "minor"
          description := "Consider adding more targeted keywords"
          impact_points := 3 } ]
    link_validation_results :=
      (input_data.asp_links.getD []).map fun link =>
        { original_url := link.url
          status := LinkStatus.valid
          redirect_count := 0
          response_time_ms := 250 }
    metadata :=
      { evaluator_version := "1.0.0"
        processing_time_seconds := 1.2
        ai_model_used := "mock-evaluator"
        content_length := content_length input_data } }

/-- Outcome of the call `jsonschema.validate(instance=data, schema=schema)`
inside `validate_input` (lines 26-27).  Per the `jsonschema` library contract
the call either returns normally, raises `jsonschema.ValidationError` when the
document violates the schema, or raises `jsonschema.SchemaError` (carrying a
message) when the schema itself is invalid. -/
inductive JsonschemaOutcome where
  | ok
  | validationError (message : String)
  | schemaError (message : String)
deriving Repr, DecidableEq

/-- Lines 24-31: `validate_input(data, schema)`.  The `try` block catches only
`jsonschema.ValidationError`, printing `"Input validation error: " + e.message`
to stderr and returning `False`; a normal return of the call yields `True`.
Any other exception (such as `SchemaError`) propagates out uncaught, modelled
as `Except.error`.  The normal result pairs the returned boolean with the list
of lines written to the error stream. -/
def validate_input (outcome : JsonschemaOutcome) :
    Except String (Bool × List String) :=
  match outcome with
  | JsonschemaOutcome.ok => Except.ok (true, [])
  | JsonschemaOutcome.validationError message =>
      Except.ok (false, ["Input validation error: " ++ message])
  | JsonschemaOutcome.schemaError message => Except.error message

/-- The claim that `validate_input` never throws, over every possible outcome
of the underlying `jsonschema.validate` call (that is, over every document and
schema pair). -/
def validate_input_never_throws : Prop :=
  ∀ outcome : JsonschemaOutcome,
    ∃ b out, validate_input outcome = Except.ok (b, out)

/-- Helper: the grade is `ELITE` exactly at total ≥ 114. -/
theorem gradeOf_eq_ELITE_iff (t : Nat) : gradeOf t = Grade.ELITE ↔ 114 ≤ t := by
  unfold gradeOf
  split
  · simp_all
  · split <;> [skip; split <;> [skip; split]] <;> simp_all

/-- Helper: the placeholder total is at most 100 for every input. -/
theorem total_score_le_100 (d : InputDocument) : total_score d ≤ 100 := by
  have h1 : base_score d ≤ 80 := Nat.min_le_left _ _
  have h2 : link_score d ≤ 20 := Nat.min_le_left _ _
  unfold total_score
  omega

/-- C1: for every input document (with `content.body` present), the engine
computes `base_score = min(80, content_length // 20)` with `content_length`
the length of `content.body`, `link_score = min(20, link_count * 5)` with
`link_count` the number of `asp_links` entries, and `overall_score.total`
is their sum, an integer in `[0, 100]`. -/
theorem overall_total_is_base_plus_link (audit_id timestamp : String)
    (title : Option String) (meta : Option ContentMeta) (body : String)
    (links : List AspLink) (cfg : Option EvaluationConfig) :
    (mock_evaluate_content audit_id timestamp
      { content := some { title := title, body := some body, meta := meta },
        asp_links := some links,
        evaluation_config := cfg }).overall_score.total
      = min 80 (body.length / 20) + min 20 (links.length * 5) ∧
    (mock_evaluate_content audit_id timestamp
      { content := some { title := title, body := some body, meta := meta },
        asp_links := some links,
        evaluation_config := cfg }).overall_score.total ≤ 100 := by
  exact ⟨rfl, total_score_le_100 _⟩

/-- C2: the report's grade equals the threshold table `gradeOf` (highest-first,
first match wins) applied to the report's total, and the table takes the
stated values at the boundaries: 114 gives ELITE, 113 and 100 give EXCELLENT,
99 and 80 give GOOD, 79 and 60 give FAIR, 59 gives POOR. -/
theorem grade_matches_threshold_table (audit_id timestamp : String)
    (d : InputDocument) :
    (mock_evaluate_content audit_id timestamp d).overall_score.grade
      = gradeOf (mock_evaluate_content audit_id timestamp d).overall_score.total ∧
    gradeOf 114 = Grade.ELITE ∧ gradeOf 113 = Grade.EXCELLENT ∧
    gradeOf 100 = Grade.EXCELLENT ∧ gradeOf 99 = Grade.GOOD ∧
    gradeOf 80 = Grade.GOOD ∧ gradeOf 79 = Grade.FAIR ∧
    gradeOf 60 = Grade.FAIR ∧ gradeOf 59 = Grade.POOR := by
  refine ⟨rfl, ?_⟩
  decide

/-- C3: in every report, `auto_publish_eligible` is true iff the grade is
ELITE, iff the total is at least 114. -/
theorem auto_publish_iff_elite_iff_114 (audit_id timestamp : String)
    (d : InputDocument) :
    ((mock_evaluate_content audit_id timestamp d).overall_score.auto_publish_eligible = true
      ↔ (mock_evaluate_content audit_id timestamp d).overall_score.grade = Grade.ELITE) ∧
    ((mock_evaluate_content audit_id timestamp d).overall_score.grade = Grade.ELITE
      ↔ 114 ≤ (mock_evaluate_content audit_id timestamp d).overall_score.total) ∧
    ((mock_evaluate_content audit_id timestamp d).overall_score.auto_publish_eligible = true
      ↔ 114 ≤ (mock_evaluate_content audit_id timestamp d).overall_score.total) := by
  have hg : (mock_evaluate_content audit_id timestamp d).overall_score.grade
      = gradeOf (total_score d) := rfl
  have ha : (mock_evaluate_content audit_id timestamp d).overall_score.auto_publish_eligible
      = decide (total_score d ≥ 114) := rfl
  have ht : (mock_evaluate_content audit_id timestamp d).overall_score.total
      = total_score d := rfl
  rw [hg, ha, ht]
  simp [decide_eq_true_iff, gradeOf_eq_ELITE_iff]

/-- A sample affiliate link used in concrete evaluations. -/
def sampleLink : AspLink :=
  { url := "u", product_name := "p", priority := 1, commission_rate := none }

/-- A concrete document with a 1600-character body and four affiliate links. -/
def doc_body1600_links4 : InputDocument :=
  { content := some
      { title := some "T"
        body := some (String.mk (List.replicate 1600 'x'))
        meta := none }
    asp_links := some [sampleLink, sampleLink, sampleLink, sampleLink]
    evaluation_config := none }

set_option maxRecDepth 8000 in
/-- C4 counterexample: the placeholder total does reach the 100 boundary —
a 1600-character body (base_score 80) with four links (link_score 20) yields
`overall_score.total = 100` (grade EXCELLENT), refuting the part of the claim
that says the total can never reach 100. -/
theorem total_reaches_100 :
    (mock_evaluate_content "audit_20240101000000" "2024-01-01T00:00:00"
      doc_body1600_links4).overall_score.total = 100 ∧
    (mock_evaluate_content "audit_20240101000000" "2024-01-01T00:00:00"
      doc_body1600_links4).overall_score.grade = Grade.EXCELLENT := by
  have hlen : content_length doc_body1600_links4 = 1600 := by rfl
  have htot : total_score doc_body1600_links4 = 100 := by
    unfold total_score base_score link_score
    rw [hlen]
    rfl
  constructor
  · exact htot
  · show gradeOf (total_score doc_body1600_links4) = Grade.EXCELLENT
    rw [htot]
    decide

/-- C4 (amended): the placeholder total never reaches the ELITE threshold 114
(it is bounded by 100), so every report's grade differs from ELITE and
`auto_publish_eligible` is false. -/
theorem total_below_elite_never_auto_publish (audit_id timestamp : String)
    (d : InputDocument) :
    (mock_evaluate_content audit_id timestamp d).overall_score.total ≤ 100 ∧
    (mock_evaluate_content audit_id timestamp d).overall_score.total < 114 ∧
    (mock_evaluate_content audit_id timestamp d).overall_score.grade ≠ Grade.ELITE ∧
    (mock_evaluate_content audit_id timestamp d).overall_score.auto_publish_eligible = false := by
  have h := total_score_le_100 d
  have ht : (mock_evaluate_content audit_id timestamp d).overall_score.total
      = total_score d := rfl
  have hg : (mock_evaluate_content audit_id timestamp d).overall_score.grade
      = gradeOf (total_score d) := rfl
  have ha : (mock_evaluate_content audit_id timestamp d).overall_score.auto_publish_eligible
      = decide (total_score d ≥ 114) := rfl
  refine ⟨by rw [ht]; exact h, by rw [ht]; omega, ?_, ?_⟩
  · rw [hg]
    intro hE
    have := (gradeOf_eq_ELITE_iff _).mp hE
    omega
  · rw [ha]
    simp only [ge_iff_le, decide_eq_false_iff_not, Nat.not_le]
    omega

/-- C5 counterexample: `validate_input` does not never-throw over every
document and schema: when the schema itself is invalid, the underlying
`jsonschema.validate` call raises `SchemaError`, which the `except` clause
(catching only `ValidationError`) does not handle, so the exception
propagates out of `validate_input`. -/
theorem validate_input_can_throw : ¬ validate_input_never_throws := by
  intro h
  obtain ⟨b, out, hb⟩ := h (JsonschemaOutcome.schemaError "invalid schema")
  simp [validate_input] at hb

/-- C5 (amended): for every outcome of the underlying document validation
itself — a normal return or a `ValidationError` — `validate_input` does not
throw: it returns `True` with nothing on the error stream on success, and on
a schema violation it returns `False` after writing the diagnostic line
naming the first failing constraint; it takes its arguments by value and
mutates neither.  (Only an invalid schema, raising `SchemaError`, escapes.) -/
theorem validate_input_reports_and_returns (message : String) :
    validate_input JsonschemaOutcome.ok = Except.ok (true, []) ∧
    validate_input (JsonschemaOutcome.validationError message)
      = Except.ok (false, ["Input validation error: " ++ message]) :=
  ⟨rfl, rfl⟩

/-- C6: the report carries exactly one `link_validation_results` entry per
`asp_links` entry, in the same order (at every index `i` the result is the
image of the link at `i`, and the lengths agree — so an empty or missing
`asp_links` yields an empty result list), and each entry has `original_url`
equal to that link's `url`, status `valid`, `redirect_count` 0, and the fixed
simulated `response_time_ms` of 250. -/
theorem link_results_one_per_link_in_order (audit_id timestamp : String)
    (d : InputDocument) (i : Nat) :
    (mock_evaluate_content audit_id timestamp d).link_validation_results.length
      = (d.asp_links.getD []).length ∧
    (mock_evaluate_content audit_id timestamp d).link_validation_results[i]?
      = ((d.asp_links.getD [])[i]?).map (fun link =>
          { original_url := link.url
            status := LinkStatus.valid
            redirect_count := 0
            response_time_ms := 250 }) := by
  constructor
  · show ((d.asp_links.getD []).map _).length = _
    simp
  · show ((d.asp_links.getD []).map _)[i]? = _
    simp

/-- C7: a document whose `content.body` is absent is evaluated without
raising, with the body treated as the empty string: `content_length = 0`,
`base_score = 0`, and — with zero links — the total is 0 and the grade is the
lowest one, POOR. -/
theorem missing_body_gives_zero_and_POOR (audit_id timestamp : String)
    (title : Option String) (meta : Option ContentMeta)
    (asp_links : Option (List AspLink)) (cfg cfg2 : Option EvaluationConfig) :
    content_length
      { content := some { title := title, body := none, meta := meta },
        asp_links := asp_links, evaluation_config := cfg } = 0 ∧
    base_score
      { content := some { title := title, body := none, meta := meta },
        asp_links := asp_links, evaluation_config := cfg } = 0 ∧
    (mock_evaluate_content audit_id timestamp
      { content := some { title := title, body := none, meta := meta },
        asp_links := some [],
        evaluation_config := cfg2 }).overall_score.total = 0 ∧
    (mock_evaluate_content audit_id timestamp
      { content := some { title := title, body := none, meta := meta },
        asp_links := some [],
        evaluation_config := cfg2 }).overall_score.grade = Grade.POOR := by
  refine ⟨rfl, ?_, ?_, ?_⟩
  · simp [base_score, content_length]
  · simp [mock_evaluate_content, total_score, base_score, link_score,
      content_length, asp_links_count]
  · simp [mock_evaluate_content, total_score, base_score, link_score,
      content_length, asp_links_count, gradeOf]

/-- C8: of two documents that differ only in the length of `content.body`
(same title, meta, links and config, hence equal link counts), the one with
the strictly longer body scores a total at least as large as the other's. -/
theorem total_monotone_in_body_length (audit_id timestamp : String)
    (title : Option String) (meta : Option ContentMeta) (b1 b2 : String)
    (asp_links : Option (List AspLink)) (cfg : Option EvaluationConfig)
    (h : b2.length < b1.length) :
    (mock_evaluate_content audit_id timestamp
      { content := some { title := title, body := some b2, meta := meta },
        asp_links := asp_links, evaluation_config := cfg }).overall_score.total
      ≤ (mock_evaluate_content audit_id timestamp
      { content := some { title := title, body := some b1, meta := meta },
        asp_links := asp_links, evaluation_config := cfg }).overall_score.total := by
  have hd : b2.length / 20 ≤ b1.length / 20 :=
    Nat.div_le_div_right (Nat.le_of_lt h)
  have hb : min 80 (b2.length / 20) ≤ min 80 (b1.length / 20) :=
    min_le_min (le_refl 80) hd
  show min 80 (b2.length / 20) + min 20 ((asp_links.getD []).length * 5)
      ≤ min 80 (b1.length / 20) + min 20 ((asp_links.getD []).length * 5)
  exact Nat.add_le_add_right hb _

/-- C8 witness: at the concrete pair of bodies "xx" and "x" with no links,
the longer body's total dominates. -/
theorem total_monotone_in_body_length_witness :
    (mock_evaluate_content "audit_20240101000000" "2024-01-01T00:00:00"
      { content := some { title := none, body := some "x", meta := none },
        asp_links := none, evaluation_config := none }).overall_score.total
      ≤ (mock_evaluate_content "audit_20240101000000" "2024-01-01T00:00:00"
      { content := some { title := none, body := some "xx", meta := none },
        asp_links := none, evaluation_config := none }).overall_score.total :=
  total_monotone_in_body_length "audit_20240101000000" "2024-01-01T00:00:00"
    none none "xx" "x" none none (by decide)

/-- C9: the eight `detailed_scores` are exactly the stated functions of the
total, the content length and the link count, and each of the six capped ones
stays within its cap (compliance and technical_quality are the fixed 8 and 4). -/
theorem detailed_scores_formulas_and_caps (audit_id timestamp : String)
    (d : InputDocument) :
    (mock_evaluate_content audit_id timestamp d).detailed_scores =
      { seo_optimization := min 15 (total_score d / 8)
        content_quality := min 20 (content_length d / 50)
        affiliate_integration := min 20 (asp_links_count d * 4)
        link_validity := min 15 (asp_links_count d * 3)
        user_value := min 20 (content_length d / 40)
        compliance := 8
        conversion_potential := min 15 (asp_links_count d * 3)
        technical_quality := 4 } ∧
    (mock_evaluate_content audit_id timestamp d).detailed_scores.seo_optimization ≤ 15 ∧
    (mock_evaluate_content audit_id timestamp d).detailed_scores.content_quality ≤ 20 ∧
    (mock_evaluate_content audit_id timestamp d).detailed_scores.affiliate_integration ≤ 20 ∧
    (mock_evaluate_content audit_id timestamp d).detailed_scores.link_validity ≤ 15 ∧
    (mock_evaluate_content audit_id timestamp d).detailed_scores.user_value ≤ 20 ∧
    (mock_evaluate_content audit_id timestamp d).detailed_scores.compliance = 8 ∧
    (mock_evaluate_content audit_id timestamp d).detailed_scores.conversion_potential ≤ 15 ∧
    (mock_evaluate_content audit_id timestamp d).detailed_scores.technical_quality = 4 :=
  ⟨rfl, Nat.min_le_left _ _, Nat.min_le_left _ _, Nat.min_le_left _ _,
    Nat.min_le_left _ _, Nat.min_le_left _ _, rfl, Nat.min_le_left _ _, rfl⟩

/-- C10: a document missing the `content` key entirely is evaluated without
raising, with `content_length = 0` (also in the report metadata), and one
missing the `asp_links` key is treated as having no links: `link_score = 0`
and `link_validation_results` empty. -/
theorem missing_keys_are_defaulted (audit_id timestamp : String)
    (content : Option Content) (asp_links : Option (List AspLink))
    (cfg : Option EvaluationConfig) :
    content_length
      { content := none, asp_links := asp_links, evaluation_config := cfg } = 0 ∧
    (mock_evaluate_content audit_id timestamp
      { content := none, asp_links := asp_links,
        evaluation_config := cfg }).metadata.content_length = 0 ∧
    link_score
      { content := content, asp_links := none, evaluation_config := cfg } = 0 ∧
    (mock_evaluate_content audit_id timestamp
      { content := content, asp_links := none,
        evaluation_config := cfg }).link_validation_results = [] := by
  refine ⟨rfl, rfl, ?_, rfl⟩
  simp [link_score, asp_links_count]
